import Mathlib

/-!
Shallow embedding of the Lalamove delivery-order pipeline of this repository:
the route handlers in `app/api/lalamove/[action]/route.ts`, the order-status
update route `app/api/orders/[id]/route.ts`, and the bulk status update route
`app/api/orders/bulk/route.ts`.

JS strings are Lean `String` (character lists where list reasoning is needed),
JS epoch-millisecond times are `Int`, JS floating-point numbers appear only
through `Number.isNaN` checks and are modelled by `JSNum` (a rational together
with the non-finite values), and JS exceptions / `undefined` are explicit
`Option` / sum constructors.  Outbound HTTP effects are reified: a handler's
result is either a structured error response or a value describing the
outbound call it proceeds to make.
-/

/-- JS numbers as far as this code base observes them: a finite value (modelled
as a rational, ignoring floating-point rounding, which no claim touches),
`NaN`, and the two infinities. -/
inductive JSNum
  | finite (q : ℚ)
  | nan
  | posInf
  | negInf
  deriving DecidableEq

/-- JS `Number.isNaN`. -/
def JSNum.isNaN : JSNum → Bool
  | .nan => true
  | _ => false

/-- JS `Number.isFinite`. -/
def JSNum.isFinite : JSNum → Bool
  | .finite _ => true
  | _ => false

/-- JS truthiness of a possibly-absent string (`undefined`, `null` and `""`
are falsy). -/
def jsTruthy : Option String → Bool
  | none => false
  | some s => !(s = "")

/-- JS falsiness test `!x` for an optional string variable. -/
def strFalsy (o : Option String) : Bool := !(jsTruthy o)

/-- JS `x || y` on strings (`x` when truthy, else `y`). -/
def jsOrStr (a : Option String) (b : String) : String :=
  match a with
  | some s => if s = "" then b else s
  | none => b

/-!
## Phone normalization

Two textually duplicated implementations exist in the source: `normalizePhone`
(inside `handleOrder` of `app/api/lalamove/[action]/route.ts`, also repeated in
`createLalamoveOrder` of `app/api/orders/[id]/route.ts`) and
`normalizePhoneNumber` (top of `app/api/orders/[id]/route.ts`, which also trims
and returns `undefined` instead of echoing bad input).  `phone.replace(/\D/g,
'')` is `List.filter Char.isDigit` on the character data.
-/

/-- The shared branch structure on the digit list: JS
`digits.startsWith('63') / ('0') / ('9') / else` (`startsWith p` is `take
p.length = p`), producing the normalized character data: `'+' + digits`,
`'+63' + digits.slice(1)`, `'+63' + digits`, `'+63' + digits`. -/
def normalizeDigits (ds : List Char) : List Char :=
  if ds.take 2 = ['6', '3'] then '+' :: ds
  else if ds.take 1 = ['0'] then '+' :: '6' :: '3' :: ds.tail
  else if ds.take 1 = ['9'] then '+' :: '6' :: '3' :: ds
  else '+' :: '6' :: '3' :: ds

/-- Function `normalizePhone` from `handleOrder` (`app/api/lalamove/[action]/route.ts`
lines 230–243): on empty input or input without digits, returns the input
unchanged; otherwise normalizes the digit list to E.164 `+63…` form. -/
def normalizePhone (phone : String) : String :=
  if phone = "" then phone
  else
    match phone.data.filter Char.isDigit with
    | [] => phone
    | ds => ⟨normalizeDigits ds⟩

/-- JS `String.prototype.trim` at the character-list level. -/
def trimChars (l : List Char) : List Char :=
  ((l.dropWhile Char.isWhitespace).reverse.dropWhile Char.isWhitespace).reverse

/-- Function `normalizePhoneNumber` from `app/api/orders/[id]/route.ts` lines 13–35:
takes an optional phone, returns `none` for absent/blank/digit-free input,
otherwise the same `+63…` normalization. -/
def normalizePhoneNumber (phone : Option String) : Option String :=
  match phone with
  | none => none
  | some p =>
    if p = "" then none
    else
      let trimmed := trimChars p.data
      if trimmed = [] then none
      else
        match trimmed.filter Char.isDigit with
        | [] => none
        | ds => some ⟨normalizeDigits ds⟩

/-- Function `getLanguageForMarket` (`app/api/lalamove/[action]/route.ts` lines 52–63):
record lookup with `'en_US'` fallback, written as the equivalent decision
chain. -/
def getLanguageForMarket (market : String) : String :=
  if market = "HK" then "en_HK"
  else if market = "SG" then "en_SG"
  else if market = "TH" then "th_TH"
  else if market = "PH" then "en_PH"
  else if market = "TW" then "zh_TW"
  else if market = "MY" then "ms_MY"
  else if market = "VN" then "vi_VN"
  else "en_US"

/-!
## Signer and upstream client (`signPayload`, `buildUpstreamUrl`,
`proxyRequest` of `app/api/lalamove/[action]/route.ts`)

The HMAC computation itself is opaque cryptography; what the claims (and the
upstream contract) are about is the *message* that gets signed and the URL the
request is sent to, which we reify in `SignedRequest`.
-/

def API_BASE_URL : String := "https://rest.lalamove.com/v3"

def API_SANDBOX_URL : String := "https://rest.sandbox.lalamove.com/v3"

/-- The message signed by `signPayload` (line 46 of the route file):
`timestamp\r\nmethod\r\npath\r\n\r\nbody`. -/
def signMessage (timestamp method path body : String) : String :=
  timestamp ++ "\r\n" ++ method ++ "\r\n" ++ path ++ "\r\n\r\n" ++ body

/-- Function `buildUpstreamUrl` (lines 87–90): versioned base host plus path. -/
def buildUpstreamUrl (path : String) (sandbox : Bool) : String :=
  (if sandbox then API_SANDBOX_URL else API_BASE_URL) ++ path

/-- The wire-level data assembled by `proxyRequest` (lines 92–118) before the
`fetch`: the body string (JSON serialization abstracted as the given
`payloadJson`, forced to `""` for GET), the version-prefixed signature path,
the signed message, and the transport URL. -/
structure SignedRequest where
  bodyString : String
  signaturePath : String
  message : String
  url : String
  deriving DecidableEq

def proxyRequestWire (path payloadJson : String) (sandbox : Bool)
    (method timestamp : String) : SignedRequest :=
  let bodyString := if method = "GET" then "" else payloadJson
  let signaturePath := "/v3" ++ path
  { bodyString := bodyString
    signaturePath := signaturePath
    message := signMessage timestamp method signaturePath bodyString
    url := buildUpstreamUrl path sandbox }

/-- Outcome of `proxyRequest`'s response handling (lines 120–134), seen from a
caller: a structured error object, a parsed data object, or a JS exception
escaping the function (`JSON.parse` throwing). -/
inductive ProxyResult (α : Type)
  | errorResult (error : String) (status : Nat)
  | dataResult (data : α)
  | thrown
  deriving DecidableEq

/-- The `fetch` response `ok` flag: status in [200, 300). -/
def responseOk (status : Nat) : Bool := 200 ≤ status && status < 300

/-- Response handling of `proxyRequest`: on non-2xx return
`{error: responseBody || 'Lalamove upstream error', status}`; on 2xx return
`{data: JSON.parse(responseBody)}`, where a parse failure (modelled by
`parsed = none`) is an uncaught exception. -/
def proxyHandleResponse {α : Type} (status : Nat) (responseBody : String)
    (parsed : Option α) : ProxyResult α :=
  if !(responseOk status) then
    .errorResult (if responseBody = "" then "Lalamove upstream error" else responseBody) status
  else
    match parsed with
    | some v => .dataResult v
    | none => .thrown

/-!
## Quote handler validation (`handleQuote`, lines 172–215)

Only the validation stage branches; afterwards the handler unconditionally
proceeds to the outbound `POST /quotations`.  The result is either the 400
response or the outbound call (carrying the validated inputs).
-/

inductive QuoteStep
  | respondError (status : Nat) (msg : String)
  | callQuotations (deliveryAddress : String) (deliveryLat deliveryLng : JSNum)
  deriving DecidableEq

/-- The branching of `handleQuote` up to the outbound call: `deliveryAddress`
is already the JS-coalesced `String(body.deliveryAddress || '')`, the
coordinates the results of `Number(...)`. -/
def handleQuote (deliveryAddress : String) (deliveryLat deliveryLng : JSNum) :
    QuoteStep :=
  if deliveryAddress = "" ∨ deliveryLat.isNaN ∨ deliveryLng.isNaN then
    .respondError 400 "Missing delivery fields"
  else
    .callQuotations deliveryAddress deliveryLat deliveryLng

/-!
## Order handler (`handleOrder`, lines 217–413)

The quotation fetched by `GET /quotations/{id}` is modelled by `Quotation`
(the envelope unwrapping `quoteResult.data?.data || quoteResult.data` of line
259, and the alternative stop nesting `quotation?.data?.stops` of line 341,
deliver the record directly).  Timestamps (`expiresAt`, `scheduleAt`, `now`)
are epoch milliseconds; an absent field is `none`.  The formatted error
strings of the source are modelled by `ErrMsg` constructors carrying exactly
the values interpolated into the template.
-/

structure Stop where
  stopId : Option String
  id : Option String
  deriving DecidableEq

structure Quotation where
  expiresAt : Option Int
  scheduleAt : Option Int
  stops : List Stop
  deriving DecidableEq

/-- Result of the quotation fetch performed when a stop ID is missing. -/
inductive FetchResult
  | fetchErr (status : Nat) (msg : String)
  | fetchOk (q : Quotation)
  deriving DecidableEq

/-- The error message templates of `handleOrder`, with their interpolated
values. -/
inductive ErrMsg
  | missingOrderFields
  | failedFetchQuotation (upstreamError : String)
  | quotationExpired (expiresAt : Int)
  | scheduleTooFarPast (scheduleAt : Int) (msPast : Int)
  | missingStopIds
  deriving DecidableEq

/-- The `POST /orders` payload assembled at lines 366–391. -/
structure OrderPayload where
  quotationId : String
  senderStopId : String
  senderName : String
  senderPhone : String
  recipientStopId : String
  recipientName : String
  recipientPhone : String
  recipientRemarks : String
  isPODEnabled : Bool
  scheduleAt : Option Int
  deriving DecidableEq

/-- Result of one `handleOrder` invocation: an error response, or the outbound
`POST /orders` call with its payload. -/
inductive OrderResult
  | respondError (status : Nat) (msg : ErrMsg)
  | callOrders (payload : OrderPayload)
  deriving DecidableEq

/-- Expiration check (lines 264–281): only performed when `expiresAt` is
present; rejects with 400 when `now` is strictly past it. -/
def expiryGuard (q : Quotation) (now : Int) : Option OrderResult :=
  match q.expiresAt with
  | none => none
  | some e =>
    if now > e then some (.respondError 400 (.quotationExpired e)) else none

/-- Schedule check (lines 283–337): decides `shouldUseScheduleAt`, or rejects
when the schedule is more than 10 minutes in the past.  The source computes
`minutesPast = |(scheduleTime - now) / (1000*60)|` and tests `minutesPast ≤
10`; over the integer millisecond difference this is exactly `now - s ≤ 10 *
1000 * 60` (the division is by a positive constant, and no millisecond value
makes the JS double quotient round across the bound 10).  The error carries
the staleness in milliseconds; the source renders it as whole minutes
(`minutesPast.toFixed(0)`) in the message. -/
def scheduleGuard (q : Quotation) (now : Int) : Except OrderResult Bool :=
  match q.scheduleAt with
  | none => .ok false
  | some s =>
    if s < now then
      if now - s ≤ 10 * 1000 * 60 then .ok false
      else .error (.respondError 400 (.scheduleTooFarPast s (now - s)))
    else .ok true

/-- Stop-ID extraction (lines 341–343): `stops[i]?.stopId || stops[i]?.id ||
''`. -/
def extractStopId (st : Option Stop) : String :=
  match st with
  | none => ""
  | some s => jsOrStr s.stopId (jsOrStr s.id "")

/-- Payload assembly (lines 361–391): phones normalized, `isPODEnabled` true,
`scheduleAt` present only when the schedule check said to use it. -/
def mkOrderPayload (quotationId senderStopId recipientStopId : String)
    (storeName storePhone recipientName recipientPhone recipientRemarks : String)
    (scheduleAt : Option Int) : OrderPayload :=
  { quotationId := quotationId
    senderStopId := senderStopId
    senderName := storeName
    senderPhone := normalizePhone storePhone
    recipientStopId := recipientStopId
    recipientName := recipientName
    recipientPhone := normalizePhone recipientPhone
    recipientRemarks := recipientRemarks
    isPODEnabled := true
    scheduleAt := scheduleAt }

/-- Function `handleOrder`: validation, then either the fetch-and-check path (when a
stop ID is missing) or the direct path.  `fetch` is the result the quotation
fetch would deliver, `now` the current time in ms. -/
def handleOrder (quotationId recipientName recipientPhone : String)
    (senderStopId0 recipientStopId0 : Option String)
    (storeName storePhone recipientRemarks : String)
    (fetch : FetchResult) (now : Int) : OrderResult :=
  if quotationId = "" ∨ recipientName = "" ∨ recipientPhone = "" then
    .respondError 400 .missingOrderFields
  else if strFalsy senderStopId0 ∨ strFalsy recipientStopId0 then
    match fetch with
    | .fetchErr status msg =>
      .respondError (if status = 0 then 500 else status) (.failedFetchQuotation msg)
    | .fetchOk q =>
      match expiryGuard q now with
      | some err => err
      | none =>
        match scheduleGuard q now with
        | .error err => err
        | .ok shouldUseScheduleAt =>
          let senderStopId := extractStopId q.stops[0]?
          let recipientStopId := extractStopId q.stops[1]?
          if senderStopId = "" ∨ recipientStopId = "" then
            .respondError 500 .missingStopIds
          else
            .callOrders (mkOrderPayload quotationId senderStopId recipientStopId
              storeName storePhone recipientName recipientPhone recipientRemarks
              (if shouldUseScheduleAt then q.scheduleAt else none))
  else
    .callOrders (mkOrderPayload quotationId (senderStopId0.getD "")
      (recipientStopId0.getD "") storeName storePhone recipientName
      recipientPhone recipientRemarks none)

/-!
## Order-status routes

`PATCH /api/orders/[id]` (lines 296–494 of `app/api/orders/[id]/route.ts`)
and `PATCH /api/orders/bulk`.  For the claims the relevant observable is the
number of courier-order creations (`createLalamoveOrder`, a `POST` to the
`/order` proxy and hence to Lalamove `POST /orders`) triggered by one status
update.  `configOk` models the background task's own guards (site settings
fetched and `buildLalamoveConfig` succeeding).
-/

structure PersistedOrder where
  status : String
  service_type : String
  lalamove_quotation_id : Option String
  lalamove_order_id : Option String
  deriving DecidableEq

/-- The trigger condition of lines 368–373. -/
def statusChangingToConfirmed (newStatus : String)
    (currentOrder : Option PersistedOrder) : Bool :=
  newStatus = "confirmed"
    && !(currentOrder.map (·.status) = some "confirmed")
    && (currentOrder.map (·.service_type) = some "delivery")
    && jsTruthy (currentOrder.bind (·.lalamove_quotation_id))
    && !(jsTruthy (currentOrder.bind (·.lalamove_order_id)))

def validStatuses : List String :=
  ["pending", "confirmed", "preparing", "ready", "out_for_delivery",
   "completed", "cancelled"]

/-- A status-only `PATCH /api/orders/[id]`: returns the updated row and the
number of courier-order creations spawned.  A status outside `validStatuses`
is rejected before any update.  The quotation id of the updated row read by
the background task equals the current one (a status-only update leaves it
untouched), so the trigger condition already accounts for it. -/
def patchOrderUpdate (currentOrder : Option PersistedOrder) (newStatus : String)
    (configOk : Bool) : Option PersistedOrder × Nat :=
  if !(validStatuses.contains newStatus) then (currentOrder, 0)
  else
    let trigger := statusChangingToConfirmed newStatus currentOrder
    let updated := currentOrder.map (fun o => { o with status := newStatus })
    (updated, if trigger && configOk then 1 else 0)

/-- Route `PATCH /api/orders/bulk` restricted to the orders it updates: sets the
status on every row and contains no courier-order logic at all, so the
invocation count is 0. -/
def bulkStatusUpdate (orders : List PersistedOrder) (newStatus : String) :
    List PersistedOrder × Nat :=
  if !(validStatuses.contains newStatus) then (orders, 0)
  else (orders.map (fun o => { o with status := newStatus }), 0)

deriving instance DecidableEq for Except

/-!
## Lemmas about phone normalization
-/

theorem normalizeDigits_shape (ds : List Char) :
    ∃ ws, normalizeDigits ds = '+' :: '6' :: '3' :: ws ∧ ∀ c ∈ ws, c ∈ ds := by
  unfold normalizeDigits
  by_cases h63 : ds.take 2 = ['6', '3']
  · obtain ⟨rest, rfl⟩ : ∃ rest, ds = '6' :: '3' :: rest := by
      rcases ds with _ | ⟨a, _ | ⟨b, rest⟩⟩ <;> simp_all
    exact ⟨rest, by rw [if_pos h63], fun c hc => by simp [hc]⟩
  · rw [if_neg h63]
    by_cases h0 : ds.take 1 = ['0']
    · rw [if_pos h0]
      exact ⟨ds.tail, rfl, fun c hc => List.mem_of_mem_tail hc⟩
    · rw [if_neg h0]
      by_cases h9 : ds.take 1 = ['9']
      · rw [if_pos h9]
        exact ⟨ds, rfl, fun c hc => hc⟩
      · rw [if_neg h9]
        exact ⟨ds, rfl, fun c hc => hc⟩

theorem filter_digits_canon {ws : List Char} (h : ∀ c ∈ ws, Char.isDigit c = true) :
    ('+' :: '6' :: '3' :: ws).filter Char.isDigit = '6' :: '3' :: ws := by
  rw [List.filter_cons_of_neg (by decide), List.filter_cons_of_pos (by decide),
    List.filter_cons_of_pos (by decide), List.filter_eq_self.mpr h]

theorem normalizeDigits_canon (ws : List Char) :
    normalizeDigits ('6' :: '3' :: ws) = '+' :: '6' :: '3' :: ws := rfl

theorem mk_cons_ne_empty (c : Char) (l : List Char) : String.mk (c :: l) ≠ "" := by
  intro h
  simpa using congrArg String.data h

theorem normalizePhone_canon (ws : List Char)
    (h : ∀ c ∈ ws, Char.isDigit c = true) :
    normalizePhone ⟨'+' :: '6' :: '3' :: ws⟩ = ⟨'+' :: '6' :: '3' :: ws⟩ := by
  unfold normalizePhone
  rw [if_neg (mk_cons_ne_empty _ _)]
  show (match ('+' :: '6' :: '3' :: ws).filter Char.isDigit with
    | [] => (⟨'+' :: '6' :: '3' :: ws⟩ : String)
    | ds => ⟨normalizeDigits ds⟩) = ⟨'+' :: '6' :: '3' :: ws⟩
  rw [filter_digits_canon h]
  show (⟨normalizeDigits ('6' :: '3' :: ws)⟩ : String) = ⟨'+' :: '6' :: '3' :: ws⟩
  rw [normalizeDigits_canon]

theorem normalizePhone_idempotent (x : String) :
    normalizePhone (normalizePhone x) = normalizePhone x := by
  by_cases hx : x = ""
  · subst hx; rfl
  · rcases hds : x.data.filter Char.isDigit with _ | ⟨d, ds⟩
    · have hx1 : normalizePhone x = x := by
        unfold normalizePhone; rw [if_neg hx, hds]
      rw [hx1, hx1]
    · have hall : ∀ c ∈ d :: ds, Char.isDigit c = true := by
        intro c hc
        rw [← hds] at hc
        exact (List.mem_filter.mp hc).2
      rcases normalizeDigits_shape (d :: ds) with ⟨ws, hws, hmem⟩
      have hx1 : normalizePhone x = ⟨'+' :: '6' :: '3' :: ws⟩ := by
        unfold normalizePhone
        rw [if_neg hx, hds]
        show (⟨normalizeDigits (d :: ds)⟩ : String) = ⟨'+' :: '6' :: '3' :: ws⟩
        rw [hws]
      rw [hx1, normalizePhone_canon ws (fun c hc => hall c (hmem c hc))]

theorem dropWhile_eq_self_of {p : Char → Bool} {l : List Char}
    (h : ∀ c ∈ l, p c = false) : l.dropWhile p = l := by
  cases l with
  | nil => rfl
  | cons a l => rw [List.dropWhile_cons, if_neg (by simp [h a (by simp)])]

theorem trimChars_eq_self {l : List Char}
    (h : ∀ c ∈ l, Char.isWhitespace c = false) : trimChars l = l := by
  unfold trimChars
  rw [dropWhile_eq_self_of h,
    dropWhile_eq_self_of (fun c hc => h c (List.mem_reverse.mp hc)),
    List.reverse_reverse]

theorem ws_not_digit (c : Char) (hw : Char.isWhitespace c = true) :
    Char.isDigit c = false := by
  have hc : ((c = ' ' ∨ c = '\t') ∨ c = '\r') ∨ c = '\n' := by
    simpa [Char.isWhitespace] using hw
  rcases hc with ((rfl | rfl) | rfl) | rfl <;> decide

theorem digit_not_whitespace (c : Char) (h : Char.isDigit c = true) :
    Char.isWhitespace c = false := by
  cases hw : Char.isWhitespace c with
  | false => rfl
  | true => rw [ws_not_digit c hw] at h; cases h

theorem normalizePhoneNumber_some (p : String) (hp : p ≠ "") :
    normalizePhoneNumber (some p) =
      (if trimChars p.data = [] then none
       else match (trimChars p.data).filter Char.isDigit with
         | [] => none
         | ds => some (⟨normalizeDigits ds⟩ : String)) := by
  show (if p = "" then none
    else
      let trimmed := trimChars p.data
      if trimmed = [] then none
      else match trimmed.filter Char.isDigit with
        | [] => none
        | ds => some (⟨normalizeDigits ds⟩ : String)) = _
  rw [if_neg hp]

theorem normalizePhoneNumber_canon (ws : List Char)
    (h : ∀ c ∈ ws, Char.isDigit c = true) :
    normalizePhoneNumber (some ⟨'+' :: '6' :: '3' :: ws⟩) =
      some ⟨'+' :: '6' :: '3' :: ws⟩ := by
  have hnw : ∀ c ∈ '+' :: '6' :: '3' :: ws, Char.isWhitespace c = false := by
    intro c hc
    simp only [List.mem_cons] at hc
    rcases hc with rfl | rfl | rfl | hc
    · decide
    · decide
    · decide
    · exact digit_not_whitespace c (h c hc)
  rw [normalizePhoneNumber_some _ (mk_cons_ne_empty _ _)]
  rw [show trimChars (String.mk ('+' :: '6' :: '3' :: ws)).data =
      '+' :: '6' :: '3' :: ws from trimChars_eq_self hnw]
  rw [if_neg (by simp), filter_digits_canon h]
  show some (⟨normalizeDigits ('6' :: '3' :: ws)⟩ : String) = _
  rw [normalizeDigits_canon]

theorem normalizePhoneNumber_idempotent (x : Option String) :
    normalizePhoneNumber (normalizePhoneNumber x) = normalizePhoneNumber x := by
  rcases x with _ | p
  · rfl
  · by_cases hp : p = ""
    · subst hp; rfl
    · by_cases htr : trimChars p.data = []
      · have h1 : normalizePhoneNumber (some p) = none := by
          rw [normalizePhoneNumber_some p hp, if_pos htr]
        rw [h1]; rfl
      · rcases hds : (trimChars p.data).filter Char.isDigit with _ | ⟨d, ds⟩
        · have h1 : normalizePhoneNumber (some p) = none := by
            rw [normalizePhoneNumber_some p hp, if_neg htr, hds]
          rw [h1]; rfl
        · have hall : ∀ c ∈ d :: ds, Char.isDigit c = true := by
            intro c hc
            rw [← hds] at hc
            exact (List.mem_filter.mp hc).2
          rcases normalizeDigits_shape (d :: ds) with ⟨ws, hws, hmem⟩
          have h1 : normalizePhoneNumber (some p) = some ⟨'+' :: '6' :: '3' :: ws⟩ := by
            rw [normalizePhoneNumber_some p hp, if_neg htr, hds]
            show some (⟨normalizeDigits (d :: ds)⟩ : String) = _
            rw [hws]
          rw [h1, normalizePhoneNumber_canon ws (fun c hc => hall c (hmem c hc))]


/-!
# Claim theorems
-/

/-- C6: both phone-normalization implementations are idempotent on every
input, and both map the local (leading 0), country-prefixed (leading 63) and
bare-subscriber (leading 9) sample numbers to `+639171234567`. -/
theorem normalize_idempotent_and_values :
    (∀ x : String, normalizePhone (normalizePhone x) = normalizePhone x) ∧
    normalizePhone "09171234567" = "+639171234567" ∧
    normalizePhone "639171234567" = "+639171234567" ∧
    normalizePhone "9171234567" = "+639171234567" ∧
    (∀ x : Option String,
      normalizePhoneNumber (normalizePhoneNumber x) = normalizePhoneNumber x) ∧
    normalizePhoneNumber (some "09171234567") = some "+639171234567" ∧
    normalizePhoneNumber (some "639171234567") = some "+639171234567" ∧
    normalizePhoneNumber (some "9171234567") = some "+639171234567" :=
  ⟨normalizePhone_idempotent, by decide, by decide, by decide,
   normalizePhoneNumber_idempotent, by decide, by decide, by decide⟩

/-- C9: the market-to-language lookup maps the seven supported market codes to
their language tags and every other market code to `en_US`. -/
theorem market_language_lookup :
    getLanguageForMarket "HK" = "en_HK" ∧ getLanguageForMarket "SG" = "en_SG" ∧
    getLanguageForMarket "TH" = "th_TH" ∧ getLanguageForMarket "PH" = "en_PH" ∧
    getLanguageForMarket "TW" = "zh_TW" ∧ getLanguageForMarket "MY" = "ms_MY" ∧
    getLanguageForMarket "VN" = "vi_VN" ∧
    ∀ m : String,
      m ∉ (["HK", "SG", "TH", "PH", "TW", "MY", "VN"] : List String) →
      getLanguageForMarket m = "en_US" := by
  refine ⟨by decide, by decide, by decide, by decide, by decide, by decide,
    by decide, ?_⟩
  intro m hm
  simp only [List.mem_cons, List.not_mem_nil, or_false, not_or] at hm
  obtain ⟨h1, h2, h3, h4, h5, h6, h7⟩ := hm
  simp [getLanguageForMarket, h1, h2, h3, h4, h5, h6, h7]

/-- Witness for `market_language_lookup` at the unsupported market `"ZZ"`. -/
theorem market_language_lookup_witness : getLanguageForMarket "ZZ" = "en_US" :=
  market_language_lookup.2.2.2.2.2.2.2 "ZZ" (by decide)

/-- C7: the signed message is
`timestamp\r\nmethod\r\nsignaturePath\r\n\r\nbody` with the body the empty
string for GET, the signature path is the version-prefixed `/v3 + path`, and
the transport URL is the versioned base host followed by exactly the signature
path, so the signed and requested paths agree for every method and path. -/
theorem sign_message_and_path_lockstep (path payloadJson : String)
    (sandbox : Bool) (method timestamp : String) :
    (proxyRequestWire path payloadJson sandbox method timestamp).message =
      timestamp ++ "\r\n" ++ method ++ "\r\n" ++
        (proxyRequestWire path payloadJson sandbox method timestamp).signaturePath ++
        "\r\n\r\n" ++
        (proxyRequestWire path payloadJson sandbox method timestamp).bodyString ∧
    (method = "GET" →
      (proxyRequestWire path payloadJson sandbox method timestamp).bodyString = "") ∧
    (proxyRequestWire path payloadJson sandbox method timestamp).signaturePath =
      "/v3" ++ path ∧
    (proxyRequestWire path payloadJson sandbox method timestamp).url =
      (if sandbox then "https://rest.sandbox.lalamove.com"
       else "https://rest.lalamove.com") ++
        (proxyRequestWire path payloadJson sandbox method timestamp).signaturePath := by
  refine ⟨rfl, fun h => by simp [proxyRequestWire, h], rfl, ?_⟩
  cases sandbox <;>
    simp only [proxyRequestWire, buildUpstreamUrl, API_BASE_URL, API_SANDBOX_URL,
      if_true, if_false, Bool.false_eq_true, ite_false, ite_true] <;>
    rw [← String.append_assoc] <;> rfl

/-- Witness for `sign_message_and_path_lockstep` on a GET quotation fetch. -/
theorem sign_message_and_path_lockstep_witness :
    (proxyRequestWire "/quotations/q1" "{}" true "GET" "1700000000000").bodyString = "" ∧
    (proxyRequestWire "/quotations/q1" "{}" true "GET" "1700000000000").signaturePath =
      "/v3" ++ "/quotations/q1" ∧
    (proxyRequestWire "/quotations/q1" "{}" true "GET" "1700000000000").url =
      (if true then "https://rest.sandbox.lalamove.com"
       else "https://rest.lalamove.com") ++
        (proxyRequestWire "/quotations/q1" "{}" true "GET" "1700000000000").signaturePath := by
  have h := sign_message_and_path_lockstep "/quotations/q1" "{}" true "GET" "1700000000000"
  exact ⟨h.2.1 rfl, h.2.2.1, h.2.2.2⟩

/-- C8 (counterexample): on a 2xx upstream response whose body fails to parse
as JSON, `proxyRequest` does not return a handled error value — the exception
escapes the layer (`JSON.parse` at line 134 is unguarded). -/
theorem parse_failure_on_2xx_is_thrown :
    proxyHandleResponse 200 "not json" (none : Option Unit) = ProxyResult.thrown := by
  decide

/-- C8 (amended): on non-2xx the upstream client returns a structured error
carrying the upstream status and the raw body (a fixed fallback message when
the body is empty) without throwing; on 2xx with parseable JSON it returns the
parsed data; on 2xx with unparseable body the `JSON.parse` exception escapes
this layer. -/
theorem upstream_response_envelope (α : Type) (status : Nat) (body : String)
    (parsed : Option α) :
    (responseOk status = false →
      proxyHandleResponse status body parsed =
        .errorResult (if body = "" then "Lalamove upstream error" else body) status) ∧
    (responseOk status = true → ∀ v, parsed = some v →
      proxyHandleResponse status body parsed = .dataResult v) ∧
    (responseOk status = true → parsed = none →
      proxyHandleResponse status body parsed = .thrown) := by
  refine ⟨fun h => ?_, fun h v hv => ?_, fun h hp => ?_⟩
  · simp [proxyHandleResponse, h]
  · subst hv; simp [proxyHandleResponse, h]
  · subst hp; simp [proxyHandleResponse, h]

/-- Witness for `upstream_response_envelope`: a 429 with body and a parsed
2xx. -/
theorem upstream_response_envelope_witness :
    proxyHandleResponse 429 "rate limited" (none : Option Nat) =
      ProxyResult.errorResult "rate limited" 429 ∧
    proxyHandleResponse 200 "7" (some 7) = ProxyResult.dataResult 7 := by
  have h1 := upstream_response_envelope Nat 429 "rate limited" none
  have h2 := upstream_response_envelope Nat 200 "7" (some 7)
  refine ⟨?_, h2.2.1 (by decide) 7 rfl⟩
  have := h1.1 (by decide)
  simpa using this

/-- C5 (counterexample): `+Infinity` is not a finite number, yet the quote
handler's validation (which only tests `Number.isNaN`) lets it through and
the outbound aggregator call is made. -/
theorem infinite_coordinate_passes_validation :
    JSNum.isFinite JSNum.posInf = false ∧
    handleQuote "Glorietta 4, Makati" (JSNum.finite 14) JSNum.posInf =
      QuoteStep.callQuotations "Glorietta 4, Makati" (JSNum.finite 14) JSNum.posInf := by
  refine ⟨rfl, ?_⟩
  simp [handleQuote, JSNum.isNaN]

/-- C5 (amended): the quote handler returns the 400 validation response (and
makes no outbound call) exactly when the delivery address is empty or a
coordinate is `NaN`; non-`NaN` non-finite coordinates pass validation. -/
theorem quote_validation_iff (deliveryAddress : String)
    (deliveryLat deliveryLng : JSNum) :
    handleQuote deliveryAddress deliveryLat deliveryLng =
        QuoteStep.respondError 400 "Missing delivery fields" ↔
      (deliveryAddress = "" ∨ deliveryLat.isNaN = true ∨ deliveryLng.isNaN = true) := by
  unfold handleQuote
  split
  · next h => exact iff_of_true rfl h
  · next h => exact iff_of_false (by simp) h

/-- C2: when the order handler fetches the quotation (a stop ID was not
supplied), input validation passed, and the fetched quotation's `expiresAt` is
in the past, the handler responds 400 with the message naming the expiry
timestamp; the result is an error response, not the `POST /orders` call. -/
theorem expired_quotation_rejected
    (quotationId recipientName recipientPhone : String)
    (senderStopId0 recipientStopId0 : Option String)
    (storeName storePhone recipientRemarks : String)
    (q : Quotation) (now e : Int)
    (hv1 : quotationId ≠ "") (hv2 : recipientName ≠ "") (hv3 : recipientPhone ≠ "")
    (hfetch : strFalsy senderStopId0 = true ∨ strFalsy recipientStopId0 = true)
    (he : q.expiresAt = some e) (hpast : e < now) :
    handleOrder quotationId recipientName recipientPhone senderStopId0
        recipientStopId0 storeName storePhone recipientRemarks (.fetchOk q) now =
      .respondError 400 (.quotationExpired e) := by
  have hexp : expiryGuard q now = some (.respondError 400 (.quotationExpired e)) := by
    unfold expiryGuard
    rw [he]
    show (if now > e then some (OrderResult.respondError 400 (ErrMsg.quotationExpired e))
      else none) = _
    rw [if_pos hpast]
  simp only [handleOrder]
  rw [if_neg (by push_neg; exact ⟨hv1, hv2, hv3⟩), if_pos hfetch]
  simp [hexp]

/-- Witness for `expired_quotation_rejected`. -/
theorem expired_quotation_rejected_witness :
    handleOrder "quot-1" "Ana" "09171234567" none none "Store" "09181234567" ""
        (.fetchOk ⟨some 1000, none, []⟩) 2000 =
      .respondError 400 (.quotationExpired 1000) :=
  expired_quotation_rejected "quot-1" "Ana" "09171234567" none none "Store"
    "09181234567" "" ⟨some 1000, none, []⟩ 2000 1000 (by decide) (by decide)
    (by decide) (Or.inl (by decide)) rfl (by decide)

/-- C3: with validation passed, the fetch path taken, the expiry check clean
and a `scheduleAt` present: a schedule at most 10 minutes in the past is
treated as immediate delivery (the `/orders` payload carries no `scheduleAt`);
a schedule more than 10 minutes in the past is rejected 400 with the message
naming the staleness; a future schedule is forwarded unchanged on the
payload. -/
theorem schedule_window_behavior
    (quotationId recipientName recipientPhone : String)
    (senderStopId0 recipientStopId0 : Option String)
    (storeName storePhone recipientRemarks : String)
    (q : Quotation) (now s : Int)
    (hv1 : quotationId ≠ "") (hv2 : recipientName ≠ "") (hv3 : recipientPhone ≠ "")
    (hfetch : strFalsy senderStopId0 = true ∨ strFalsy recipientStopId0 = true)
    (hexp : expiryGuard q now = none)
    (hsch : q.scheduleAt = some s) :
    (s < now → now - s ≤ 10 * 1000 * 60 →
      extractStopId q.stops[0]? ≠ "" → extractStopId q.stops[1]? ≠ "" →
      handleOrder quotationId recipientName recipientPhone senderStopId0
          recipientStopId0 storeName storePhone recipientRemarks (.fetchOk q) now =
        .callOrders (mkOrderPayload quotationId (extractStopId q.stops[0]?)
          (extractStopId q.stops[1]?) storeName storePhone recipientName
          recipientPhone recipientRemarks none)) ∧
    (s < now → ¬(now - s ≤ 10 * 1000 * 60) →
      handleOrder quotationId recipientName recipientPhone senderStopId0
          recipientStopId0 storeName storePhone recipientRemarks (.fetchOk q) now =
        .respondError 400 (.scheduleTooFarPast s (now - s))) ∧
    (now < s →
      extractStopId q.stops[0]? ≠ "" → extractStopId q.stops[1]? ≠ "" →
      handleOrder quotationId recipientName recipientPhone senderStopId0
          recipientStopId0 storeName storePhone recipientRemarks (.fetchOk q) now =
        .callOrders (mkOrderPayload quotationId (extractStopId q.stops[0]?)
          (extractStopId q.stops[1]?) storeName storePhone recipientName
          recipientPhone recipientRemarks (some s))) := by
  refine ⟨fun hlt hle hs1 hs2 => ?_, fun hlt hgt => ?_, fun hfut hs1 hs2 => ?_⟩
  · have hsg : scheduleGuard q now = .ok false := by
      unfold scheduleGuard
      rw [hsch]
      show (if s < now then
          if now - s ≤ 10 * 1000 * 60 then Except.ok false
          else Except.error (OrderResult.respondError 400
            (ErrMsg.scheduleTooFarPast s (now - s)))
        else Except.ok true) = _
      rw [if_pos hlt, if_pos hle]
    simp only [handleOrder]
    rw [if_neg (by push_neg; exact ⟨hv1, hv2, hv3⟩), if_pos hfetch]
    simp [hexp, hsg, hs1, hs2]
  · have hsg : scheduleGuard q now =
        .error (.respondError 400 (.scheduleTooFarPast s (now - s))) := by
      unfold scheduleGuard
      rw [hsch]
      show (if s < now then
          if now - s ≤ 10 * 1000 * 60 then Except.ok false
          else Except.error (OrderResult.respondError 400
            (ErrMsg.scheduleTooFarPast s (now - s)))
        else Except.ok true) = _
      rw [if_pos hlt, if_neg hgt]
    simp only [handleOrder]
    rw [if_neg (by push_neg; exact ⟨hv1, hv2, hv3⟩), if_pos hfetch]
    simp [hexp, hsg]
  · have hsg : scheduleGuard q now = .ok true := by
      unfold scheduleGuard
      rw [hsch]
      show (if s < now then
          if now - s ≤ 10 * 1000 * 60 then Except.ok false
          else Except.error (OrderResult.respondError 400
            (ErrMsg.scheduleTooFarPast s (now - s)))
        else Except.ok true) = _
      rw [if_neg (not_lt.mpr (le_of_lt hfut))]
    simp only [handleOrder]
    rw [if_neg (by push_neg; exact ⟨hv1, hv2, hv3⟩), if_pos hfetch]
    simp [hexp, hsg, hs1, hs2, hsch]

/-- Witness for `schedule_window_behavior`: a schedule 5 minutes past is
forwarded as immediate, one 15 minutes past is rejected, and a future one is
forwarded on the payload. -/
theorem schedule_window_behavior_witness :
    handleOrder "quot-1" "Ana" "09171234567" none none "Store" "09181234567" ""
        (.fetchOk ⟨none, some 0, [⟨some "s0", none⟩, ⟨some "s1", none⟩]⟩) 300000 =
      .callOrders (mkOrderPayload "quot-1" "s0" "s1" "Store" "09181234567" "Ana"
        "09171234567" "" none) ∧
    handleOrder "quot-1" "Ana" "09171234567" none none "Store" "09181234567" ""
        (.fetchOk ⟨none, some 0, [⟨some "s0", none⟩, ⟨some "s1", none⟩]⟩) 900000 =
      .respondError 400 (.scheduleTooFarPast 0 900000) ∧
    handleOrder "quot-1" "Ana" "09171234567" none none "Store" "09181234567" ""
        (.fetchOk ⟨none, some 3600000, [⟨some "s0", none⟩, ⟨some "s1", none⟩]⟩) 0 =
      .callOrders (mkOrderPayload "quot-1" "s0" "s1" "Store" "09181234567" "Ana"
        "09171234567" "" (some 3600000)) := by
  refine ⟨?_, ?_, ?_⟩
  · exact (schedule_window_behavior "quot-1" "Ana" "09171234567" none none
      "Store" "09181234567" ""
      ⟨none, some 0, [⟨some "s0", none⟩, ⟨some "s1", none⟩]⟩ 300000 0
      (by decide) (by decide) (by decide) (Or.inl (by decide)) (by decide)
      rfl).1 (by decide) (by decide) (by decide) (by decide)
  · exact (schedule_window_behavior "quot-1" "Ana" "09171234567" none none
      "Store" "09181234567" ""
      ⟨none, some 0, [⟨some "s0", none⟩, ⟨some "s1", none⟩]⟩ 900000 0
      (by decide) (by decide) (by decide) (Or.inl (by decide)) (by decide)
      rfl).2.1 (by decide) (by decide)
  · exact (schedule_window_behavior "quot-1" "Ana" "09171234567" none none
      "Store" "09181234567" ""
      ⟨none, some 3600000, [⟨some "s0", none⟩, ⟨some "s1", none⟩]⟩ 0 3600000
      (by decide) (by decide) (by decide) (Or.inl (by decide)) (by decide)
      rfl).2.2 (by decide) (by decide) (by decide)

/-- C4 (counterexample): a fetched quotation without usable stop identifiers
is rejected with HTTP status 500 (`app/api/lalamove/[action]/route.ts` line
353), not the 400-equivalent status the claim states; no `POST /orders` call
is made. -/
theorem missing_stop_ids_status_is_500 :
    handleOrder "quot-1" "Ana" "09171234567" none none "Store" "09181234567" ""
        (.fetchOk ⟨none, none, []⟩) 0 =
      .respondError 500 .missingStopIds := by
  decide

/-- C4 (amended): whenever, after the fetch and the expiry and schedule checks,
the extracted sender or recipient stop ID is still empty, the handler responds
with the 500-status missing-stop-IDs error and makes no `POST /orders` call. -/
theorem missing_stop_ids_rejected
    (quotationId recipientName recipientPhone : String)
    (senderStopId0 recipientStopId0 : Option String)
    (storeName storePhone recipientRemarks : String)
    (q : Quotation) (now : Int) (shouldUseScheduleAt : Bool)
    (hv1 : quotationId ≠ "") (hv2 : recipientName ≠ "") (hv3 : recipientPhone ≠ "")
    (hfetch : strFalsy senderStopId0 = true ∨ strFalsy recipientStopId0 = true)
    (hexp : expiryGuard q now = none)
    (hsg : scheduleGuard q now = .ok shouldUseScheduleAt)
    (hstop : extractStopId q.stops[0]? = "" ∨ extractStopId q.stops[1]? = "") :
    handleOrder quotationId recipientName recipientPhone senderStopId0
        recipientStopId0 storeName storePhone recipientRemarks (.fetchOk q) now =
      .respondError 500 .missingStopIds := by
  simp only [handleOrder]
  rw [if_neg (by push_neg; exact ⟨hv1, hv2, hv3⟩), if_pos hfetch]
  simp [hexp, hsg, hstop]

/-- Witness for `missing_stop_ids_rejected`. -/
theorem missing_stop_ids_rejected_witness :
    handleOrder "quot-2" "Ben" "09171234567" (some "stop-a") none "Store"
        "09181234567" "" (.fetchOk ⟨none, none, [⟨some "", some ""⟩]⟩) 0 =
      .respondError 500 .missingStopIds :=
  missing_stop_ids_rejected "quot-2" "Ben" "09171234567" (some "stop-a") none
    "Store" "09181234567" "" ⟨none, none, [⟨some "", some ""⟩]⟩ 0 false
    (by decide) (by decide) (by decide) (Or.inr (by decide)) (by decide)
    (by decide) (Or.inr (by decide))

/-- C10: when both stop IDs are supplied non-empty, the handler goes straight
to the `POST /orders` call with those IDs and no `scheduleAt` on the payload,
for every fetch outcome and every current time — i.e. no quotation fetch, no
expiry check and no schedule check influences the result. -/
theorem supplied_stop_ids_skip_checks
    (quotationId recipientName recipientPhone s1 s2
      storeName storePhone recipientRemarks : String)
    (hv1 : quotationId ≠ "") (hv2 : recipientName ≠ "") (hv3 : recipientPhone ≠ "")
    (h1 : s1 ≠ "") (h2 : s2 ≠ "") (fetch : FetchResult) (now : Int) :
    handleOrder quotationId recipientName recipientPhone (some s1) (some s2)
        storeName storePhone recipientRemarks fetch now =
      .callOrders (mkOrderPayload quotationId s1 s2 storeName storePhone
        recipientName recipientPhone recipientRemarks none) := by
  simp only [handleOrder]
  rw [if_neg (by push_neg; exact ⟨hv1, hv2, hv3⟩),
    if_neg (by simp [strFalsy, jsTruthy, h1, h2])]
  rfl

/-- Witness for `supplied_stop_ids_skip_checks`: even an expired, stale
quotation fetch result does not stop the direct path. -/
theorem supplied_stop_ids_skip_checks_witness :
    handleOrder "quot-3" "Cara" "09171234567" (some "stop-a") (some "stop-b")
        "Store" "09181234567" "" (.fetchOk ⟨some 0, some 0, []⟩) 99999999 =
      .callOrders (mkOrderPayload "quot-3" "stop-a" "stop-b" "Store"
        "09181234567" "Cara" "09171234567" "" none) :=
  supplied_stop_ids_skip_checks "quot-3" "Cara" "09171234567" "stop-a" "stop-b"
    "Store" "09181234567" "" (by decide) (by decide) (by decide) (by decide)
    (by decide) (.fetchOk ⟨some 0, some 0, []⟩) 99999999

/-- C1 (counterexample): the bulk status-update route can transition an order
meeting every condition of the claim (delivery type, quotation id present,
courier-order id absent, not yet confirmed) to `confirmed`, and it performs
zero courier-order creations — not the exactly one the claim requires of
every route. -/
theorem bulk_confirm_creates_no_courier_order :
    statusChangingToConfirmed "confirmed"
        (some ⟨"pending", "delivery", some "quot-1", none⟩) = true ∧
    bulkStatusUpdate [⟨"pending", "delivery", some "quot-1", none⟩] "confirmed" =
      ([⟨"confirmed", "delivery", some "quot-1", none⟩], 0) := by
  decide

/-- C1 (amended): for the single-order PATCH route, a status update to
`confirmed` on a not-yet-confirmed delivery order with a quotation id and no
courier-order id spawns exactly one courier-order creation (when site settings
yield a config); once a courier-order id is stored, a `confirmed` update
spawns none; and the bulk status-update route never spawns any. -/
theorem confirmed_transition_invocation_counts
    (o : PersistedOrder) (configOk : Bool)
    (hs : o.status ≠ "confirmed") (ht : o.service_type = "delivery")
    (hq : jsTruthy o.lalamove_quotation_id = true) :
    (jsTruthy o.lalamove_order_id = false → configOk = true →
      (patchOrderUpdate (some o) "confirmed" configOk).2 = 1) ∧
    (jsTruthy o.lalamove_order_id = true →
      (patchOrderUpdate (some o) "confirmed" configOk).2 = 0) ∧
    (∀ (orders : List PersistedOrder) (newStatus : String),
      (bulkStatusUpdate orders newStatus).2 = 0) := by
  have hval : "confirmed" ∈ validStatuses := by decide
  refine ⟨fun hoid hcfg => ?_, fun hoid => ?_, fun orders newStatus => ?_⟩
  · subst hcfg
    simp [patchOrderUpdate, statusChangingToConfirmed, hval, hs, ht, hq, hoid]
  · simp [patchOrderUpdate, statusChangingToConfirmed, hval, hoid]
  · unfold bulkStatusUpdate
    split
    · rfl
    · rfl

/-- Witness for `confirmed_transition_invocation_counts`. -/
theorem confirmed_transition_invocation_counts_witness :
    (patchOrderUpdate (some ⟨"pending", "delivery", some "quot-1", none⟩)
      "confirmed" true).2 = 1 ∧
    (patchOrderUpdate (some ⟨"pending", "delivery", some "quot-1", some "ord-9"⟩)
      "confirmed" true).2 = 0 ∧
    (bulkStatusUpdate [⟨"pending", "delivery", some "quot-1", none⟩]
      "confirmed").2 = 0 := by
  refine ⟨?_, ?_, ?_⟩
  · exact (confirmed_transition_invocation_counts
      ⟨"pending", "delivery", some "quot-1", none⟩ true (by decide) rfl
      (by decide)).1 (by decide) rfl
  · exact (confirmed_transition_invocation_counts
      ⟨"pending", "delivery", some "quot-1", some "ord-9"⟩ true (by decide) rfl
      (by decide)).2.1 (by decide)
  · exact (confirmed_transition_invocation_counts
      ⟨"pending", "delivery", some "quot-1", none⟩ true (by decide) rfl
      (by decide)).2.2 _ _
